import Mathlib

/-!
Verification of the github-crawler crawl engine: a shallow embedding of the
model entities (`Request`, `CrawlerState`, `Response`), the worker crawler
loop, the fetcher decorators (retrier, rate-limit enforcer) and the GraphQL
adapter's response handling, with theorems settling the specified properties.

Machine integers (`u16`, `u32`) are embedded as `Nat`; the single place where
overflow semantics matter (the worker's `u32` subtraction computing the
collision count) is made explicit through `u32Sub`, whose `none` result models
the debug-build underflow panic. Rust's `BinaryHeap` is embedded as a list kept
sorted in descending `Request.cmp` order (`heapPush` inserts, popping takes the
head); for element sets on which `cmp` behaves as a strict order this agrees
with the heap's pop-the-greatest contract. Asynchronous effects are embedded
by explicit state passing; external collaborators (the inner fetcher, the
persister, the GraphQL client) are embedded as scripts of their successive
results, consumed in call order.
-/

namespace GithubCrawler

/-- A request to the GitHub API (`src/model/request.rs`): either a repository
search or a per-organization repository listing, each carrying the page size
`first` and an optional pagination cursor `after`. -/
inductive Request where
  | searchOrganization (query : String) (first : Nat) (after : Option String)
  | repositoriesFromOrganization (organizationName : String) (first : Nat) (after : Option String)
deriving DecidableEq, Repr

namespace Request

/-- `Request::get_first`. -/
def get_first : Request → Nat
  | .searchOrganization _ first _ => first
  | .repositoriesFromOrganization _ first _ => first

/-- `Request::get_after`. -/
def get_after : Request → Option String
  | .searchOrganization _ _ after => after
  | .repositoriesFromOrganization _ _ after => after

/-- `Request::get_variant_weight`: `SearchOrganization = 0`,
`RepositoriesFromOrganization = 1`. -/
def get_variant_weight : Request → Nat
  | .searchOrganization _ _ _ => 0
  | .repositoriesFromOrganization _ _ _ => 1

end Request

/-- Rust's `Option<String>` ordering: `None` is less than `Some`, two `Some`
compare by the inner strings. -/
def optStrCmp : Option String → Option String → Ordering
  | none, none => .eq
  | none, some _ => .lt
  | some _, none => .gt
  | some a, some b => compare a b

/-- `Ord for Request` (`src/model/request.rs` lines 50-65): compare `after`,
then the variant weight, then `first`, then the variant-specific tail that
compares this side's `query` (or `organization_name`) with the OTHER side's
`after`, a missing `after` read as the empty string. -/
def Request.cmp (a b : Request) : Ordering :=
  (optStrCmp a.get_after b.get_after).then
    ((compare a.get_variant_weight b.get_variant_weight).then
      ((compare a.get_first b.get_first).then
        (match a with
          | .searchOrganization query _ _ => compare query (b.get_after.getD "")
          | .repositoriesFromOrganization organizationName _ _ =>
              compare organizationName (b.get_after.getD ""))))

/-- The Request order as the spec's §3 describes it, written from the spec's
words for comparison with the source's `Request.cmp`: lexicographic on the
4-tuple (1) `after` with absent < present then string order, (2) variant
weight `SearchOrganization = 0 < RepositoriesFromOrganization = 1`,
(3) `first`, (4) the variant-specific tail comparing `query` respectively
`organizationName` against the other side's `after`, missing treated as
empty. -/
def specOrderCmp (a b : Request) : Ordering :=
  match optStrCmp a.get_after b.get_after with
  | .lt => .lt
  | .gt => .gt
  | .eq =>
    match compare a.get_variant_weight b.get_variant_weight with
    | .lt => .lt
    | .gt => .gt
    | .eq =>
      match compare a.get_first b.get_first with
      | .lt => .lt
      | .gt => .gt
      | .eq =>
        match a with
        | .searchOrganization query _ _ => compare query (b.get_after.getD "")
        | .repositoriesFromOrganization organizationName _ _ =>
            compare organizationName (b.get_after.getD "")

/-- A fetcher API rate limit (`src/model/entities.rs`). The four `i32`/string
fields of the Rust struct. -/
structure FetcherRateLimit where
  limit : Int
  cost : Int
  remaining : Int
  reset_at : String
deriving DecidableEq, Repr

/-- `FetcherRateLimit::default()`: zeroes and the empty string. -/
def FetcherRateLimit.initial : FetcherRateLimit := ⟨0, 0, 0, ""⟩

/-- Modelled from the spec: `is_exceeded` is not under `src/` (only its caller
in `fetcher_rate_limiter.rs` is); the spec §3 defines "Exceeded" iff
`remaining <= 0`. -/
def FetcherRateLimit.is_exceeded (rl : FetcherRateLimit) : Bool :=
  rl.remaining ≤ 0

/-- Modelled from the spec: `duration_until_reset` is not under `src/`; the
spec §3 defines `durationUntilReset(now) = max(0, resetAt − now)`, the reset
instant abstracted here as an integer timestamp. -/
def duration_until_reset (reset_at now : Int) : Int :=
  max 0 (reset_at - now)

/-- Metadata of a GitHub repository (`src/model/entities.rs`). -/
structure Repository where
  repository_name : String
  organization_name : String
  total_stars : Nat
deriving DecidableEq, Repr

/-- A response carrying fetched repositories and the rate limit snapshot
(`src/model/response.rs`). -/
structure Response where
  repositories : List Repository
  rate_limit : FetcherRateLimit
deriving DecidableEq, Repr

/-- The errors the embedded engine can surface, mirroring the `anyhow` errors
the source constructs. `notEnoughPersisted` carries the target and persisted
counts interpolated into `CrawlerState::has_completed`'s message;
`failedAfter` carries the attempt count of the retrier's terminal error;
`underflow` models the debug-build panic of the worker's `u32` subtraction;
`scriptExhausted` and `outOfFuel` are artifacts of the script/fuel embedding
(a run that ends in either made more calls than its collaborator scripts or
its fuel allow, which no settled scenario does). -/
inductive CrawlError where
  | noRequests
  | notEnoughPersisted (target persisted : Nat)
  | failedAfter (attempts : Nat)
  | remote (msg : String)
  | underflow
  | scriptExhausted
  | outOfFuel
deriving DecidableEq, Repr

/-- `u32` subtraction `a - b`: `none` models the underflow panic of a Rust
debug build when `b > a`. -/
def u32Sub (a b : Nat) : Option Nat :=
  if b ≤ a then some (a - b) else none

/-- Insertion into the descending-`cmp` list embedding Rust's
`BinaryHeap<Request>`: the new element goes in front of the first element it
compares `Greater` to. -/
def heapPush (r : Request) : List Request → List Request
  | [] => [r]
  | x :: xs => if Request.cmp r x = .gt then r :: x :: xs else x :: heapPush r xs

/-- The shared crawler state (`src/model/entities.rs`): priority queue, dedup
set, target, counters and the current rate limit. The `RwLock`s are dropped;
operations take and return the whole state. -/
structure CrawlerState where
  requests_priority_queue : List Request
  requests_pushed : List Request
  total_repositories_target : Nat
  total_fetcher_calls : Nat
  total_persisted_repositories : Nat
  total_collisions_repositories : Nat
  current_api_rate_limit : FetcherRateLimit
deriving DecidableEq, Repr

namespace CrawlerState

/-- `CrawlerState::default()`: empty queue and set, zero counters. -/
def initial : CrawlerState :=
  ⟨[], [], 0, 0, 0, 0, FetcherRateLimit.initial⟩

/-- `CrawlerState::has_completed` (`src/model/entities.rs` lines 141-169):
`ok true` when enough repositories are persisted, an error naming the target
and the persisted count when the queue is empty, requests have been pushed
and not enough is persisted, `ok false` otherwise. -/
def has_completed (s : CrawlerState) : Except CrawlError Bool :=
  let target := s.total_repositories_target
  let persisted := s.total_persisted_repositories
  if target ≤ persisted then
    .ok true
  else
    if s.requests_priority_queue.isEmpty ∧ ¬s.requests_pushed.isEmpty
        ∧ ¬target ≤ persisted then
      .error (.notEnoughPersisted target persisted)
    else
      .ok false

/-- `CrawlerState::push_request`: a no-op when the request was already pushed,
otherwise it is recorded in the dedup set and pushed onto the queue. -/
def push_request (s : CrawlerState) (r : Request) : CrawlerState :=
  if r ∈ s.requests_pushed then s
  else
    { s with
      requests_pushed := r :: s.requests_pushed
      requests_priority_queue := heapPush r s.requests_priority_queue }

/-- `CrawlerState::push_requests`: fold `push_request` over the list. -/
def push_requests (s : CrawlerState) (rs : List Request) : CrawlerState :=
  rs.foldl push_request s

/-- `CrawlerState::pop_request`: pop the greatest element, here the head of
the descending list. -/
def pop_request (s : CrawlerState) : Option Request × CrawlerState :=
  match s.requests_priority_queue with
  | [] => (none, s)
  | r :: rest => (some r, { s with requests_priority_queue := rest })

/-- `CrawlerState::set_total_repositories_target`. -/
def set_total_repositories_target (s : CrawlerState) (n : Nat) : CrawlerState :=
  { s with total_repositories_target := n }

/-- `CrawlerState::increment_total_fetcher_calls`. -/
def increment_total_fetcher_calls (s : CrawlerState) (k : Nat) : CrawlerState :=
  { s with total_fetcher_calls := s.total_fetcher_calls + k }

/-- `CrawlerState::increment_total_persisted_repositories`. -/
def increment_total_persisted_repositories (s : CrawlerState) (k : Nat) : CrawlerState :=
  { s with total_persisted_repositories := s.total_persisted_repositories + k }

/-- `CrawlerState::increment_total_collisions_repositories`. -/
def increment_total_collisions_repositories (s : CrawlerState) (k : Nat) : CrawlerState :=
  { s with total_collisions_repositories := s.total_collisions_repositories + k }

/-- `CrawlerState::update_current_api_rate_limit`. -/
def update_current_api_rate_limit (s : CrawlerState) (rl : FetcherRateLimit) : CrawlerState :=
  { s with current_api_rate_limit := rl }

end CrawlerState

/-- One operation on the shared state's queue, for quantifying over operation
sequences. -/
inductive StateOp where
  | push (r : Request)
  | pop
deriving Repr

/-- Apply one operation: a push returns no request, a pop returns what
`pop_request` popped. -/
def applyOp (s : CrawlerState) : StateOp → CrawlerState × Option Request
  | .push r => (s.push_request r, none)
  | .pop => let (r, s') := s.pop_request; (s', r)

/-- Run a sequence of operations from a state, collecting in order every
request a `pop` returned. -/
def runOps (s : CrawlerState) : List StateOp → CrawlerState × List Request
  | [] => (s, [])
  | op :: ops =>
    let (s', out) := applyOp s op
    let (s'', outs) := runOps s' ops
    (s'', out.toList ++ outs)

/-- What one fetch yields when it succeeds: `None` for "no edges, terminal for
this request", or a response together with the next requests to enqueue. -/
abbrev FetchResult := Option (Response × List Request)

/-- `WorkerCrawler::process_response` (`src/infrastructure/crawler_worker.rs`
lines 32-54): record the response's rate limit, hand the repositories to the
persister (its scripted results consumed in call order), add the returned
count to `total_persisted` and the `u32` difference `batch length - returned`
to `total_collisions`; `CrawlError.underflow` models the debug-build panic of
that subtraction. Returns the new state and the rest of the persister
script. -/
def process_response (s : CrawlerState) (response : Response)
    (persistScript : List (Except CrawlError Nat)) :
    Except CrawlError (CrawlerState × List (Except CrawlError Nat)) :=
  let s := s.update_current_api_rate_limit response.rate_limit
  match persistScript with
  | [] => .error .scriptExhausted
  | .error e :: _ => .error e
  | .ok n :: rest =>
    let s := s.increment_total_persisted_repositories n
    match u32Sub response.repositories.length n with
    | none => .error .underflow
    | some c => .ok (s.increment_total_collisions_repositories c, rest)

/-- The loop of `WorkerCrawler::crawl` (`src/infrastructure/crawler_worker.rs`
lines 69-83), fuelled: while `has_completed` is `ok false` (its error
propagating through `?`), pop a request; when one pops, count the fetcher
call, consume the next scripted fetcher result (an error propagates; a
non-empty result is processed and its next requests pushed), then
unconditionally push the popped request back. Returns the final state on
success. -/
def crawl_loop : Nat → CrawlerState → List (Except CrawlError FetchResult) →
    List (Except CrawlError Nat) → Except CrawlError CrawlerState
  | 0, _, _, _ => .error .outOfFuel
  | fuel + 1, s, fetchScript, persistScript =>
    match s.has_completed with
    | .error e => .error e
    | .ok true => .ok s
    | .ok false =>
      match s.pop_request with
      | (none, s') => crawl_loop fuel s' fetchScript persistScript
      | (some request, s') =>
        let s1 := s'.increment_total_fetcher_calls 1
        match fetchScript with
        | [] => .error .scriptExhausted
        | .error e :: _ => .error e
        | .ok none :: fetchRest =>
            crawl_loop fuel (s1.push_request request) fetchRest persistScript
        | .ok (some (response, next_requests)) :: fetchRest =>
          match process_response s1 response persistScript with
          | .error e => .error e
          | .ok (s2, persistRest) =>
              crawl_loop fuel ((s2.push_requests next_requests).push_request request)
                fetchRest persistRest

/-- `WorkerCrawler::crawl` (`src/infrastructure/crawler_worker.rs` lines
59-86): reject an empty seed list, set the target, push the seeds and run the
loop from `CrawlerState.initial`. -/
def crawl (fuel : Nat) (requests : List Request) (total_repositories : Nat)
    (fetchScript : List (Except CrawlError FetchResult))
    (persistScript : List (Except CrawlError Nat)) : Except CrawlError CrawlerState :=
  if requests.length = 0 then .error .noRequests
  else
    crawl_loop fuel
      ((CrawlerState.initial.set_total_repositories_target total_repositories).push_requests
        requests)
      fetchScript persistScript

/-- The loop of `FetcherRetrier::fetch` (`src/infrastructure/fetcher_retrier.rs`
lines 48-66): each iteration first evaluates `has_completed` (whose error —
the `failed` verdict — propagates through the `?` on the loop condition, and
whose `ok true` exits the loop into `Ok(None)`); while not done, the next
scripted inner result is consumed: a success returns as is, an error bumps
`attempts` and either surfaces `failedAfter` once `attempts ≥ max_retries` or
sleeps and retries. The inner fetcher leaves the shared state untouched, so
`has_completed` is evaluated on the same state each iteration. -/
def retrier_fetch_go (s : CrawlerState) (max_retries : Nat) :
    Nat → List (Except CrawlError FetchResult) → Except CrawlError FetchResult
  | _attempts, [] =>
    match s.has_completed with
    | .error e => .error e
    | .ok true => .ok none
    | .ok false => .error .scriptExhausted
  | attempts, item :: rest =>
    match s.has_completed with
    | .error e => .error e
    | .ok true => .ok none
    | .ok false =>
      match item with
      | .ok res => .ok res
      | .error _ =>
        if max_retries ≤ attempts + 1 then .error (.failedAfter (attempts + 1))
        else retrier_fetch_go s max_retries (attempts + 1) rest

/-- `FetcherRetrier::fetch`: the retry loop started with zero attempts. -/
def fetcher_retrier_fetch (s : CrawlerState) (max_retries : Nat)
    (script : List (Except CrawlError FetchResult)) : Except CrawlError FetchResult :=
  retrier_fetch_go s max_retries 0 script

/-- `FetcherRateLimitEnforcer::fetch` (`src/infrastructure/fetcher_rate_limiter.rs`
lines 25-40) as a function of the inner fetcher's result: an error or an empty
result passes through untouched; a non-empty result is returned unchanged
after sleeping when its rate limit is exceeded. The boolean records whether
the enforcer slept. -/
def rate_limit_enforcer_fetch (inner : Except CrawlError FetchResult) :
    Except CrawlError FetchResult × Bool :=
  match inner with
  | .error e => (.error e, false)
  | .ok none => (.ok none, false)
  | .ok (some (response, requests)) =>
    if response.rate_limit.is_exceeded then (.ok (some (response, requests)), true)
    else (.ok (some (response, requests)), false)

/-- The GraphQL adapter's error kind (`src/infrastructure/fetcher_graphql.rs`):
a payload that failed to parse, or a remote/transport failure. -/
inductive FetcherError where
  | parse (msg : String)
  | remote (msg : String)
deriving DecidableEq, Repr

/-- `pageInfo` of a GraphQL search payload. -/
structure PageInfo where
  endCursor : Option String
  hasNextPage : Bool
deriving DecidableEq, Repr

/-- One repository node of a GraphQL search edge. -/
structure RepositoryNode where
  name : String
  ownerLogin : String
  stargazerCount : Nat
deriving DecidableEq, Repr

/-- One (possibly null) edge of a GraphQL search payload; null edges are
`none`. -/
structure SearchEdge where
  node : RepositoryNode
deriving DecidableEq, Repr

/-- The search part of a parsed GraphQL payload. -/
structure SearchResultData where
  edges : List (Option SearchEdge)
  pageInfo : PageInfo
deriving DecidableEq, Repr

/-- A parsed GraphQL payload: search data plus the rate limit. -/
structure SearchQueryData where
  search : SearchResultData
  rateLimit : FetcherRateLimit
deriving DecidableEq, Repr

/-- `GraphQlFetcher::fetch_organizations` (`src/infrastructure/fetcher_graphql.rs`
lines 170-220) as a function of the client's parsed-or-failed payload: a parse
failure degrades to `ok none`; a remote failure propagates; no edges is
`ok none`; otherwise the response carries no repositories and the next
requests are one `RepositoriesFromOrganization` per non-null edge owner plus,
when `hasNextPage`, the search continuation carrying `endCursor`. -/
def fetch_organizations (query : String) (first : Nat)
    (fetched : Except FetcherError SearchQueryData) :
    Except FetcherError FetchResult :=
  match fetched with
  | .error (.parse _) => .ok none
  | .error e => .error e
  | .ok data =>
    if data.search.edges.isEmpty then .ok none
    else
      let next_requests := data.search.edges.filterMap fun edge =>
        edge.map fun edge =>
          Request.repositoriesFromOrganization edge.node.ownerLogin first none
      let next_requests :=
        if data.search.pageInfo.hasNextPage then
          next_requests ++ [Request.searchOrganization query first data.search.pageInfo.endCursor]
        else next_requests
      .ok (some (⟨[], data.rateLimit⟩, next_requests))

/-- `GraphQlFetcher::fetch_repositories_from_organization`
(`src/infrastructure/fetcher_graphql.rs` lines 222-269): any failure of the
client — parse failures included — propagates as an error; no edges is
`ok none`; otherwise the response carries one repository per non-null edge and
the next requests are the pagination continuation when `hasNextPage`. -/
def fetch_repositories_from_organization (organization_name : String) (first : Nat)
    (fetched : Except FetcherError SearchQueryData) :
    Except FetcherError FetchResult :=
  match fetched with
  | .error e => .error e
  | .ok data =>
    if data.search.edges.isEmpty then .ok none
    else
      .ok (some
        (⟨data.search.edges.filterMap fun edge =>
            edge.map fun edge =>
              ⟨edge.node.name, organization_name, edge.node.stargazerCount⟩,
          data.rateLimit⟩,
        if data.search.pageInfo.hasNextPage then
          [Request.repositoriesFromOrganization organization_name first
            data.search.pageInfo.endCursor]
        else []))

/-- The rate limit `FetcherRateLimit::dummy()` used by the source's scenario
tests. -/
def dummyRateLimit : FetcherRateLimit := ⟨5000, 1, 4999, "2025-01-01T00:00:00Z"⟩

/-- The cascade scenario's seed request `Search("is:public", 100, None)`. -/
def cascadeSeed : Request := .searchOrganization "is:public" 100 none

/-- The cascade scenario's continuation `Search("is:public", 100, Some("c1"))`. -/
def cascadeContinuation : Request := .searchOrganization "is:public" 100 (some "c1")

/-- The cascade scenario's scripted fetcher: first call yields repositories
r1, r2 and the continuation, second call yields r2, r3 and nothing further. -/
def cascadeFetchScript : List (Except CrawlError FetchResult) :=
  [.ok (some (⟨[⟨"r1", "o1", 10⟩, ⟨"r2", "o2", 20⟩], dummyRateLimit⟩, [cascadeContinuation])),
   .ok (some (⟨[⟨"r2", "o2", 20⟩, ⟨"r3", "o3", 30⟩], dummyRateLimit⟩, []))]

/-- The cascade scenario's scripted persister: 2 newly inserted rows, then 1. -/
def cascadePersistScript : List (Except CrawlError Nat) := [.ok 2, .ok 1]

/-- A "stuck" state: one request was pushed and popped (empty queue, non-empty
dedup set), the target of 1 not reached — `has_completed` reports the `failed`
verdict there. -/
def stuckState : CrawlerState :=
  ((runOps CrawlerState.initial [.push (.searchOrganization "dummy" 10 none), .pop]).1).set_total_repositories_target 1

deriving instance DecidableEq for Except

/-- The queue/dedup-set invariant every sequence of operations preserves: the
queue holds no duplicates, everything in the queue is in the dedup set, every
request popped so far is in the dedup set and no longer in the queue, and no
request was popped twice. -/
def QueueInv (s : CrawlerState) (popped : List Request) : Prop :=
  s.requests_priority_queue.Nodup ∧
  (∀ r ∈ s.requests_priority_queue, r ∈ s.requests_pushed) ∧
  (∀ r ∈ popped, r ∈ s.requests_pushed ∧ r ∉ s.requests_priority_queue) ∧
  popped.Nodup

/-- Inserting into the descending list is a permutation of consing: the queue
embedding never loses or duplicates an element. -/
theorem heapPush_perm (r : Request) (l : List Request) : (heapPush r l).Perm (r :: l) := by
  induction l with
  | nil => simp [heapPush]
  | cons x xs ih =>
    simp only [heapPush]
    split
    · exact List.Perm.refl _
    · exact (ih.cons x).trans (List.Perm.swap r x xs)

/-- Membership in the queue after a heap push. -/
theorem mem_heapPush {y r : Request} {l : List Request} :
    y ∈ heapPush r l ↔ y = r ∨ y ∈ l := by
  rw [(heapPush_perm r l).mem_iff, List.mem_cons]

/-- `push_request` preserves the queue/dedup invariant. -/
theorem push_request_inv {s : CrawlerState} {popped : List Request} (r : Request)
    (h : QueueInv s popped) : QueueInv (s.push_request r) popped := by
  obtain ⟨hnd, hsub, hpop, hpnd⟩ := h
  unfold CrawlerState.push_request
  split
  · exact ⟨hnd, hsub, hpop, hpnd⟩
  · rename_i hnotin
    refine ⟨?_, ?_, ?_, hpnd⟩
    · refine ((heapPush_perm r _).nodup_iff).mpr (List.nodup_cons.mpr ⟨?_, hnd⟩)
      exact fun hmem => hnotin (hsub r hmem)
    · intro x hx
      rcases mem_heapPush.mp hx with rfl | hx'
      · exact List.mem_cons_self _ _
      · exact List.mem_cons_of_mem _ (hsub x hx')
    · intro x hx
      obtain ⟨hx1, hx2⟩ := hpop x hx
      refine ⟨List.mem_cons_of_mem _ hx1, ?_⟩
      intro hmem
      rcases mem_heapPush.mp hmem with rfl | h'
      · exact hnotin hx1
      · exact hx2 h'

/-- `pop_request` preserves the queue/dedup invariant, the popped element
joining the popped list. -/
theorem pop_request_inv {s : CrawlerState} {popped : List Request}
    (h : QueueInv s popped) :
    QueueInv (s.pop_request).2 (popped ++ (s.pop_request).1.toList) := by
  obtain ⟨hnd, hsub, hpop, hpnd⟩ := h
  unfold CrawlerState.pop_request
  cases hq : s.requests_priority_queue with
  | nil => simpa using ⟨hnd, hsub, hpop, hpnd⟩
  | cons r rest =>
    rw [hq] at hnd hsub hpop
    simp only [Option.toList_some]
    refine ⟨hnd.of_cons, ?_, ?_, ?_⟩
    · exact fun x hx => hsub x (List.mem_cons_of_mem _ hx)
    · intro x hx
      rcases List.mem_append.mp hx with hx' | hx'
      · obtain ⟨h1, h2⟩ := hpop x hx'
        exact ⟨h1, fun hm => h2 (List.mem_cons_of_mem _ hm)⟩
      · rcases List.mem_singleton.mp hx' with rfl
        exact ⟨hsub x (List.mem_cons_self _ _), (List.nodup_cons.mp hnd).1⟩
    · refine List.Nodup.append hpnd (List.nodup_singleton _) ?_
      intro x hx hx'
      rcases List.mem_singleton.mp hx' with rfl
      exact (hpop x hx).2 (List.mem_cons_self _ _)

/-- Any operation sequence preserves the queue/dedup invariant. -/
theorem runOps_inv : ∀ (ops : List StateOp) (s : CrawlerState) (popped : List Request),
    QueueInv s popped → QueueInv (runOps s ops).1 (popped ++ (runOps s ops).2)
  | [], s, popped, h => by simpa [runOps] using h
  | .push r :: ops, s, popped, h => by
    simpa [runOps, applyOp] using runOps_inv ops (s.push_request r) popped (push_request_inv r h)
  | .pop :: ops, s, popped, h => by
    have h' := runOps_inv ops (s.pop_request).2 (popped ++ (s.pop_request).1.toList)
      (pop_request_inv h)
    simpa [runOps, applyOp, List.append_assoc] using h'

/-- The default state satisfies the queue/dedup invariant with nothing popped. -/
theorem initial_inv : QueueInv CrawlerState.initial [] := by
  refine ⟨List.nodup_nil, ?_, ?_, List.nodup_nil⟩ <;> simp [CrawlerState.initial]

/-- `push_request` never removes a request from the dedup set. -/
theorem push_request_pushed_mono {s : CrawlerState} (r : Request) {x : Request}
    (h : x ∈ s.requests_pushed) : x ∈ (s.push_request r).requests_pushed := by
  unfold CrawlerState.push_request
  split
  · exact h
  · exact List.mem_cons_of_mem _ h

/-- No operation sequence removes a request from the dedup set. -/
theorem runOps_pushed_mono : ∀ (ops : List StateOp) (s : CrawlerState) {x : Request},
    x ∈ s.requests_pushed → x ∈ (runOps s ops).1.requests_pushed
  | [], s, x, h => by simpa [runOps] using h
  | .push r :: ops, s, x, h => by
    simpa [runOps, applyOp] using
      runOps_pushed_mono ops (s.push_request r) (push_request_pushed_mono r h)
  | .pop :: ops, s, x, h => by
    have h' : x ∈ (s.pop_request).2.requests_pushed := by
      unfold CrawlerState.pop_request
      cases hq : s.requests_priority_queue <;> simpa using h
    simpa [runOps, applyOp] using runOps_pushed_mono ops (s.pop_request).2 h'

/-- Pushing a request already in the dedup set changes nothing. -/
theorem push_request_noop {s : CrawlerState} {r : Request}
    (h : r ∈ s.requests_pushed) : s.push_request r = s := by
  unfold CrawlerState.push_request
  exact if_pos h

/-- `has_completed` rewritten with propositional conditions: enough persisted
is done, otherwise an empty queue with a non-empty dedup set is the failure
error, otherwise not done. -/
theorem has_completed_char (s : CrawlerState) :
    s.has_completed =
      if s.total_repositories_target ≤ s.total_persisted_repositories then .ok true
      else if s.requests_priority_queue = [] ∧ s.requests_pushed ≠ [] then
        .error (.notEnoughPersisted s.total_repositories_target s.total_persisted_repositories)
      else .ok false := by
  simp only [CrawlerState.has_completed, List.isEmpty_iff]
  split_ifs with h1 h2 h3 <;> first | rfl | tauto

/-- A chain of `Ordering.then` is the nested first-decisive-comparison match. -/
theorem then_chain (o1 o2 o3 t : Ordering) :
    o1.then (o2.then (o3.then t)) =
      match o1 with
      | .lt => .lt
      | .gt => .gt
      | .eq =>
        match o2 with
        | .lt => .lt
        | .gt => .gt
        | .eq =>
          match o3 with
          | .lt => .lt
          | .gt => .gt
          | .eq => t := by
  cases o1 <;> cases o2 <;> cases o3 <;> rfl

/-- The source's comparator computes exactly the spec's §3 lexicographic
4-tuple order. -/
theorem cmp_eq_specOrderCmp (x y : Request) : Request.cmp x y = specOrderCmp x y := by
  cases x <;> cases y <;>
    simp only [Request.cmp, specOrderCmp, Request.get_after, Request.get_variant_weight,
      Request.get_first] <;>
    exact then_chain _ _ _ _

/-- Pushing `a` then `b` with `b` not above `a` pops `a` first. -/
theorem runOps_pair_pop (a b : Request) (hne : b ≠ a) (hnotgt : Request.cmp b a ≠ .gt) :
    (runOps CrawlerState.initial [.push a, .push b, .pop, .pop]).2 = [a, b] := by
  simp [runOps, applyOp, CrawlerState.push_request, CrawlerState.pop_request,
    CrawlerState.initial, heapPush, hne, hnotgt]

/-- Pushing `b` then `a` with `a` above `b` still pops `a` first. -/
theorem runOps_pair_pop' (a b : Request) (hne : a ≠ b) (hgt : Request.cmp a b = .gt) :
    (runOps CrawlerState.initial [.push b, .push a, .pop, .pop]).2 = [a, b] := by
  simp [runOps, applyOp, CrawlerState.push_request, CrawlerState.pop_request,
    CrawlerState.initial, heapPush, hne, hgt]

/-- Claim C1: for every crawler state, `has_completed` is `done` exactly when
the persisted count has reached the target; it is the `failed` error — naming
the expected target and the persisted count — exactly when the queue is
empty, the pushed set is non-empty and the persisted count is below the
target; and it is `notDone` in every other state. -/
theorem has_completed_trichotomy (s : CrawlerState) :
    (s.has_completed = .ok true ↔
      s.total_repositories_target ≤ s.total_persisted_repositories) ∧
    (s.has_completed = .error (.notEnoughPersisted s.total_repositories_target
        s.total_persisted_repositories) ↔
      (s.requests_priority_queue = [] ∧ s.requests_pushed ≠ [] ∧
        s.total_persisted_repositories < s.total_repositories_target)) ∧
    (s.has_completed = .ok false ↔
      ¬(s.total_repositories_target ≤ s.total_persisted_repositories) ∧
      ¬(s.requests_priority_queue = [] ∧ s.requests_pushed ≠ [] ∧
        s.total_persisted_repositories < s.total_repositories_target)) := by
  rw [has_completed_char]
  split_ifs with h1 h2
  · refine ⟨by simp [h1], ?_, ?_⟩
    · constructor
      · intro h; cases h
      · rintro ⟨-, -, hlt⟩; omega
    · constructor
      · intro h; cases h
      · rintro ⟨h, -⟩; exact absurd h1 h
  · refine ⟨?_, ?_, ?_⟩
    · constructor
      · intro h; cases h
      · intro h; exact absurd h h1
    · constructor
      · intro _; exact ⟨h2.1, h2.2, by omega⟩
      · intro _; rfl
    · constructor
      · intro h; cases h
      · rintro ⟨-, hn⟩
        exact absurd ⟨h2.1, h2.2, by omega⟩ hn
  · refine ⟨?_, ?_, ?_⟩
    · constructor
      · intro h; cases h
      · intro h; exact absurd h h1
    · constructor
      · intro h; cases h
      · rintro ⟨hq, hp, -⟩; exact absurd ⟨hq, hp⟩ h2
    · constructor
      · intro _
        refine ⟨h1, ?_⟩
        rintro ⟨hq, hp, -⟩
        exact absurd ⟨hq, hp⟩ h2
      · intro _; rfl

/-- Claim C2 (amended): when the retrier's loop condition finds the shared
state `done`, the retrier returns empty with no error; but when
`has_completed` reports the `failed` verdict, that error propagates out of
the retrier's `fetch` through the `?` on the loop condition — the retrier
does not convert it to an empty result. -/
theorem retrier_completion_gate (s : CrawlerState) (max_retries : Nat)
    (script : List (Except CrawlError FetchResult)) :
    (s.has_completed = .ok true → fetcher_retrier_fetch s max_retries script = .ok none) ∧
    ∀ e, s.has_completed = .error e → fetcher_retrier_fetch s max_retries script = .error e := by
  constructor
  · intro h
    cases script <;> simp [fetcher_retrier_fetch, retrier_fetch_go, h]
  · intro e h
    cases script <;> simp [fetcher_retrier_fetch, retrier_fetch_go, h]

/-- Claim C2 witness: on the fresh default state the target 0 is already met,
so the retrier returns empty without consulting its inner fetcher. -/
theorem retrier_completion_gate_witness :
    fetcher_retrier_fetch CrawlerState.initial 3 [] = .ok none :=
  (retrier_completion_gate CrawlerState.initial 3 []).1 rfl

/-- Claim C2 counterexample: on the stuck state (empty queue, one pushed
request, target missed) `has_completed` is the `failed` error and the
retrier's fetch returns that error — not the empty result the claim
asserts. -/
theorem retrier_propagates_failed :
    stuckState.has_completed = .error (.notEnoughPersisted 1 0) ∧
    fetcher_retrier_fetch stuckState 3 [] = .error (.notEnoughPersisted 1 0) ∧
    fetcher_retrier_fetch stuckState 3 [] ≠ .ok none :=
  ⟨rfl, rfl, by decide⟩

/-- Claim C3 (amended): the comparison is lexicographic on the 4-tuple the
spec describes (proved by refinement against `specOrderCmp`), but it is not a
total order; for any pair on which it is strict and antisymmetric
(`a > b` and `b < a`), popping returns `a` before `b` whatever the push
order. -/
theorem request_cmp_lex_and_antisymmetric_pair_pop (a b : Request)
    (hab : Request.cmp a b = .gt) (hba : Request.cmp b a = .lt) :
    (∀ x y : Request, Request.cmp x y = specOrderCmp x y) ∧
    (runOps CrawlerState.initial [.push a, .push b, .pop, .pop]).2 = [a, b] ∧
    (runOps CrawlerState.initial [.push b, .push a, .pop, .pop]).2 = [a, b] := by
  have hne : a ≠ b := by
    rintro rfl
    rw [hab] at hba
    cases hba
  exact ⟨cmp_eq_specOrderCmp,
    runOps_pair_pop a b (Ne.symm hne) (by simp [hba]),
    runOps_pair_pop' a b hne hab⟩

/-- Claim C3 witness: the search request with cursor "c" strictly outranks the
cursorless one, and pops first from either push order. -/
theorem request_cmp_pair_witness :
    (∀ x y : Request, Request.cmp x y = specOrderCmp x y) ∧
    (runOps CrawlerState.initial [.push (.searchOrganization "q" 1 (some "c")),
      .push (.searchOrganization "q" 1 none), .pop, .pop]).2 =
      [.searchOrganization "q" 1 (some "c"), .searchOrganization "q" 1 none] ∧
    (runOps CrawlerState.initial [.push (.searchOrganization "q" 1 none),
      .push (.searchOrganization "q" 1 (some "c")), .pop, .pop]).2 =
      [.searchOrganization "q" 1 (some "c"), .searchOrganization "q" 1 none] :=
  request_cmp_lex_and_antisymmetric_pair_pop _ _ (by decide) (by decide)

/-- Claim C3 counterexample: two distinct cursorless search requests each
compare `Greater` to the other — the fourth tie-break compares one side's
query with the other side's absent cursor — and a request even compares
`Greater` to itself, so the comparison is neither antisymmetric nor
reflexive and is no total order. -/
theorem request_cmp_not_antisymmetric :
    Request.cmp (.searchOrganization "a" 1 none) (.searchOrganization "b" 1 none) = .gt ∧
    Request.cmp (.searchOrganization "b" 1 none) (.searchOrganization "a" 1 none) = .gt ∧
    Request.searchOrganization "a" 1 none ≠ Request.searchOrganization "b" 1 none ∧
    Request.cmp (.searchOrganization "a" 1 none) (.searchOrganization "a" 1 none) = .gt :=
  ⟨by decide, by decide, by decide, by decide⟩

/-- Claim C4: over every finite sequence of push and pop operations from the
default state, the requests returned by pops are pairwise distinct — a
request equal to one already pushed never re-enters the queue. -/
theorem popped_requests_distinct (ops : List StateOp) :
    ((runOps CrawlerState.initial ops).2).Nodup := by
  have h := runOps_inv ops CrawlerState.initial [] initial_inv
  simpa using h.2.2.2

/-- Claim C5: a GraphQL payload that fails to parse degrades to an empty
result for a search-organization request but is returned as an error for a
repositories-from-organization request. -/
theorem parse_failure_differentiated (query organization_name msg : String) (first : Nat) :
    fetch_organizations query first (.error (.parse msg)) = .ok none ∧
    fetch_repositories_from_organization organization_name first (.error (.parse msg)) =
      .error (.parse msg) :=
  ⟨rfl, rfl⟩

/-- Claim C6: the cascade scenario — two scripted fetches (r1,r2 plus a
continuation, then r2,r3), persister returning 2 then 1, target 3 — succeeds
with 3 persisted, 1 collision and 2 fetcher calls. -/
theorem cascade_scenario :
    crawl 5 [cascadeSeed] 3 cascadeFetchScript cascadePersistScript =
      .ok ⟨[], [cascadeContinuation, cascadeSeed], 3, 2, 3, 1, dummyRateLimit⟩ := rfl

/-- Claim C7: pushing the four E8 requests and popping four times yields
exactly the order Details-with-cursor, Search-with-cursor, Details-without,
Search-without. -/
theorem priority_pop_order :
    (runOps CrawlerState.initial
      [.push (.searchOrganization "q" 100 none),
       .push (.searchOrganization "q" 100 (some "c")),
       .push (.repositoriesFromOrganization "o" 100 none),
       .push (.repositoriesFromOrganization "o" 100 (some "c")),
       .pop, .pop, .pop, .pop]).2 =
      [.repositoriesFromOrganization "o" 100 (some "c"),
       .searchOrganization "q" 100 (some "c"),
       .repositoriesFromOrganization "o" 100 none,
       .searchOrganization "q" 100 none] := rfl

/-- Claim C8: the rate-limit enforcer passes empty and error results through
unchanged without sleeping, and returns a non-empty result with the same
response and the same next requests, sleeping (the boolean) exactly when the
response's rate limit is exceeded. -/
theorem rate_limit_enforcer_passthrough :
    (∀ e : CrawlError, rate_limit_enforcer_fetch (.error e) = (.error e, false)) ∧
    rate_limit_enforcer_fetch (.ok none) = (.ok none, false) ∧
    ∀ (response : Response) (requests : List Request),
      (rate_limit_enforcer_fetch (.ok (some (response, requests)))).1 =
        .ok (some (response, requests)) ∧
      (rate_limit_enforcer_fetch (.ok (some (response, requests)))).2 =
        response.rate_limit.is_exceeded := by
  refine ⟨fun e => rfl, rfl, fun response requests => ?_⟩
  unfold rate_limit_enforcer_fetch
  cases h : response.rate_limit.is_exceeded <;> simp [h]

/-- Claim C9: every popped request is in the dedup set of the state reached by
any operation sequence, the dedup set never shrinks under further operations,
and re-pushing a popped request is a no-op leaving the whole state — queue
included — unchanged. -/
theorem popped_in_pushed_and_requeue_noop (ops : List StateOp) :
    (∀ r ∈ (runOps CrawlerState.initial ops).1.requests_priority_queue,
        r ∈ (runOps CrawlerState.initial ops).1.requests_pushed) ∧
    (∀ (s : CrawlerState) (more : List StateOp), ∀ r ∈ s.requests_pushed,
        r ∈ (runOps s more).1.requests_pushed) ∧
    ∀ r ∈ (runOps CrawlerState.initial ops).2,
      r ∈ (runOps CrawlerState.initial ops).1.requests_pushed ∧
      (runOps CrawlerState.initial ops).1.push_request r = (runOps CrawlerState.initial ops).1 := by
  have h := runOps_inv ops CrawlerState.initial [] initial_inv
  refine ⟨h.2.1, fun s more r hr => runOps_pushed_mono more s hr, fun r hr => ?_⟩
  have hmem : r ∈ (runOps CrawlerState.initial ops).1.requests_pushed := by
    have := h.2.2.1 r (by simpa using hr)
    exact this.1
  exact ⟨hmem, push_request_noop hmem⟩

/-- Claim C9 witness: after pushing one request and popping it, re-pushing it
leaves the state unchanged. -/
theorem requeue_noop_witness :
    (runOps CrawlerState.initial [.push (.searchOrganization "w" 2 none), .pop]).1.push_request
        (.searchOrganization "w" 2 none) =
      (runOps CrawlerState.initial [.push (.searchOrganization "w" 2 none), .pop]).1 :=
  ((popped_in_pushed_and_requeue_noop [.push (.searchOrganization "w" 2 none), .pop]).2.2
    (.searchOrganization "w" 2 none) (by decide)).2

/-- Claim C10: when the persister's returned count is at most the batch
length, processing a response adds exactly `length - returned` collisions
without underflow; a persister returning more than the batch length makes the
`u32` subtraction underflow (the debug-build panic, modelled as the
`underflow` error) — exhibited on an empty batch with a returned count
of 1. -/
theorem collision_update_safe_and_underflow (s : CrawlerState) (response : Response)
    (n : Nat) (ps : List (Except CrawlError Nat)) (h : n ≤ response.repositories.length) :
    process_response s response (.ok n :: ps) =
      .ok (((s.update_current_api_rate_limit
          response.rate_limit).increment_total_persisted_repositories
          n).increment_total_collisions_repositories (response.repositories.length - n), ps) ∧
    process_response CrawlerState.initial ⟨[], FetcherRateLimit.initial⟩ [.ok 1] =
      .error .underflow := by
  refine ⟨?_, rfl⟩
  simp [process_response, u32Sub, h]

/-- Claim C10 witness: a one-element batch with one row reported inserted adds
zero collisions, while the empty batch with one row reported inserted
underflows. -/
theorem collision_update_witness :
    process_response CrawlerState.initial ⟨[⟨"r", "o", 5⟩], FetcherRateLimit.initial⟩ [.ok 1] =
      .ok (((CrawlerState.initial.update_current_api_rate_limit
          FetcherRateLimit.initial).increment_total_persisted_repositories
          1).increment_total_collisions_repositories 0, []) ∧
    process_response CrawlerState.initial ⟨[], FetcherRateLimit.initial⟩ [.ok 1] =
      .error .underflow :=
  collision_update_safe_and_underflow CrawlerState.initial
    ⟨[⟨"r", "o", 5⟩], FetcherRateLimit.initial⟩ 1 [] (by decide)

end GithubCrawler
